import Mathlib

/-!
Verification of the FasterKAN / FasterKANvolver forward-computation core
(src/core/kan/fasterkan_layers.py).

Shape-level semantics: every tensor operation of the source is modelled by a
computable function from input shapes (lists of dimension sizes) to
`Except TorchError Shape`, mirroring the corresponding PyTorch operation's
shape contract, including its error conditions.  Value-level semantics for the
components whose claims are about values (Squeeze-Excitation gating, the
residual block's identity path, self-attention's gamma residual, the basis
function) use tensors as functions over `Fin` index types with real entries.

PyTorch facts relied upon (modelled below, noted where used):
  * `Tensor.view` with a single `-1` slot infers the missing dimension as
    numel / (product of the specified dimensions); it fails when that product
    is zero or does not divide numel (at::infer_size).
  * `nn.LayerNorm(d)` requires the input's last dimension to equal `d`.
  * `nn.Linear(i, o)` requires the last dimension to equal `i` and replaces it
    by `o`.
  * `nn.Conv2d` output spatial size is `(n + 2p - k) / s + 1` and the padded
    input must be at least as large as the kernel.
  * `Tensor.squeeze 0` removes dimension 0 exactly when it has size 1.
-/

/-- A tensor shape: the list of dimension sizes. -/
abbrev Shape := List Nat

/-- Number of elements of a tensor of the given shape. -/
def numel (s : Shape) : Nat := s.prod

/-- Error taxonomy of the modelled PyTorch calls: `runtimeError` for shape
mismatches raised inside library operations, `valueError` for the explicit
raise of ValueError in FasterKANLayer.forward (src line 47). -/
inductive TorchError where
  | runtimeError : TorchError
  | valueError : TorchError
deriving DecidableEq

/-- Last element of a shape, if any. -/
def lastDim : Shape → Option Nat
  | [] => none
  | [d] => some d
  | _ :: rest => lastDim rest

/-- Last element of a dimension list, with default 0. -/
def lastDimD : List Nat → Nat
  | [] => 0
  | [d] => d
  | _ :: rest => lastDimD rest

/-- `Tensor.view` semantics (at::infer_size): dimensions given as `some n`,
with `none` standing for the single `-1` slot.  With a `-1` present, the
missing size is numel divided by the product of the known sizes; the call
fails when that product is zero or does not divide numel.  Without `-1`,
numel must match exactly. -/
def inferView (ne : Nat) (dims : List (Option Nat)) : Except TorchError Shape :=
  let known := (dims.filterMap id).prod
  if dims.any Option.isNone then
    if 0 < known ∧ known ∣ ne then
      .ok (dims.map (fun d => d.getD (ne / known)))
    else .error .runtimeError
  else if ne = known then .ok (dims.filterMap id)
  else .error .runtimeError

/-- `Tensor.view` with all target dimensions explicit: numel must match. -/
def exactView (ne : Nat) (target : Shape) : Except TorchError Shape :=
  if ne = numel target then .ok target else .error .runtimeError

/-- `nn.LayerNorm(normalizedShape)` shape contract: the input's last dimension
must equal `normalizedShape`; the shape is preserved.  (src line 14/37) -/
def layerNormShape (normalizedShape : Nat) (x : Shape) : Except TorchError Shape :=
  match lastDim x with
  | some d => if d = normalizedShape then .ok x else .error .runtimeError
  | none => .error .runtimeError

/-- `nn.Linear(inF, outF)` shape contract: last dimension must equal `inF`
and is replaced by `outF`. -/
def linearShape (inF outF : Nat) (x : Shape) : Except TorchError Shape :=
  match x with
  | [] => .error .runtimeError
  | l => if lastDim l = some inF then .ok (l.dropLast ++ [outF]) else .error .runtimeError

/-- `Tensor.squeeze 0`: drop dimension 0 exactly when it has size 1. -/
def squeeze0 (x : Shape) : Shape :=
  if x.head? = some 1 then x.tail else x

/-- Modelled from the spec: the output shape of ReflectionalSwitchFunction
(its source, core/kan/fasterkan_basis.py, is not under src/).  Spec section
4.1: output shape is the input tensor shape with a trailing axis of size
num_points appended. -/
def ReflectionalSwitchFunction.forwardShape (numGrids : Nat) (x : Shape) : Shape :=
  x ++ [numGrids]

/-- Shape semantics of the rank-3 core of FasterKANLayer.forward
(src lines 49-61): apply the rbf, flatten batch and sequence with
view(batch_size * seq_len, -1), apply the spline linear projection
(in_features = input_dim * num_grids, src line 16), and reshape back with
view(batch_size, seq_len, -1). -/
def FasterKANLayer.coreShape (inputDim outputDim numGrids b s d : Nat) :
    Except TorchError Shape :=
  match inferView (numel (ReflectionalSwitchFunction.forwardShape numGrids [b, s, d]))
      [some (b * s), none] with
  | .error e => .error e
  | .ok sb =>
    match linearShape (inputDim * numGrids) outputDim sb with
    | .error e => .error e
    | .ok out => inferView (numel out) [some b, some s, none]

/-- Shape semantics of FasterKANLayer.forward (src lines 18-67): layer
normalization first (src line 37), then the rank branch: rank 2 is promoted
to batch size 1 and squeezed on return (src lines 40-43, 64-65), rank 3 is
passed through, any other rank raises ValueError (src line 47). -/
def FasterKANLayer.forwardShape (inputDim outputDim numGrids : Nat) (x : Shape) :
    Except TorchError Shape :=
  match layerNormShape inputDim x with
  | .error e => .error e
  | .ok x1 =>
    match x1 with
    | [s, d] =>
      match FasterKANLayer.coreShape inputDim outputDim numGrids 1 s d with
      | .error e => .error e
      | .ok y => .ok (squeeze0 y)
    | [b, s, d] => FasterKANLayer.coreShape inputDim outputDim numGrids b s d
    | _ => .error .valueError

/-- The (in_dim, out_dim) pairs of the layers FasterKAN.__init__ constructs:
zip of layers_hidden[:-1] with layers_hidden[1:] (src line 118). -/
def FasterKAN.initPairs (layersHidden : List Nat) : List (Nat × Nat) :=
  layersHidden.dropLast.zip layersHidden.tail

/-- FasterKAN.__init__ (src lines 87-120): builds the layer list and performs
no validation whatsoever of layers_hidden; construction always succeeds. -/
def FasterKAN.init (layersHidden : List Nat) : Except TorchError (List (Nat × Nat)) :=
  .ok (FasterKAN.initPairs layersHidden)

/-- Shape semantics of FasterKAN.forward (src lines 122-134): fold the layers
over the input strictly in sequence. -/
def FasterKAN.forwardShape (numGrids : Nat) (pairs : List (Nat × Nat)) (x : Shape) :
    Except TorchError Shape :=
  pairs.foldl (fun acc p => acc.bind (FasterKANLayer.forwardShape p.1 p.2 numGrids)) (.ok x)

/-- Whether an Except result is a success. -/
def exceptIsOk : Except TorchError Shape → Bool
  | .ok _ => true
  | .error _ => false

/- ### Helper lemmas about the shape primitives -/

theorem okBind (a : Shape) (f : Shape → Except TorchError Shape) :
    (Except.ok a : Except TorchError Shape).bind f = f a := rfl

theorem inferView_pair (ne k v : Nat) (hk : 0 < k) (h : ne = k * v) :
    inferView ne [some k, none] = .ok [k, v] := by
  show (if 0 < k * 1 ∧ (k * 1) ∣ ne then
          (Except.ok [k, ne / (k * 1)] : Except TorchError Shape)
        else .error .runtimeError) = .ok [k, v]
  rw [if_pos ⟨by omega, by rw [mul_one, h]; exact Dvd.intro v rfl⟩]
  rw [mul_one, h, Nat.mul_div_cancel_left v hk]

theorem inferView_triple (ne b s v : Nat) (h0 : 0 < b * s) (h : ne = b * s * v) :
    inferView ne [some b, some s, none] = .ok [b, s, v] := by
  show (if 0 < b * (s * 1) ∧ (b * (s * 1)) ∣ ne then
          (Except.ok [b, s, ne / (b * (s * 1))] : Except TorchError Shape)
        else .error .runtimeError) = .ok [b, s, v]
  have e1 : b * (s * 1) = b * s := by ring
  rw [if_pos (by rw [e1, h]; exact ⟨h0, Dvd.intro v rfl⟩)]
  rw [e1, h, Nat.mul_div_cancel_left v h0]

theorem linearShape_ok (inF outF n : Nat) :
    linearShape inF outF [n, inF] = .ok [n, outF] := by
  show (if lastDim [n, inF] = some inF then
          (Except.ok (List.dropLast [n, inF] ++ [outF]) : Except TorchError Shape)
        else .error .runtimeError) = .ok [n, outF]
  rw [if_pos (show lastDim [n, inF] = some inF from rfl)]
  rfl

theorem layerNormShape_pair (s d : Nat) :
    layerNormShape d [s, d] = .ok [s, d] := by
  show (if d = d then (Except.ok [s, d] : Except TorchError Shape)
        else .error .runtimeError) = .ok [s, d]
  rw [if_pos rfl]

theorem layerNormShape_triple (b s d : Nat) :
    layerNormShape d [b, s, d] = .ok [b, s, d] := by
  show (if d = d then (Except.ok [b, s, d] : Except TorchError Shape)
        else .error .runtimeError) = .ok [b, s, d]
  rw [if_pos rfl]

theorem layerNormShape_ok_eq (n : Nat) (x y : Shape)
    (h : layerNormShape n x = .ok y) : y = x := by
  unfold layerNormShape at h
  split at h
  · split at h
    · cases h; rfl
    · cases h
  · cases h

theorem coreShape_ok (d o g b s : Nat) (hbs : 0 < b * s) :
    FasterKANLayer.coreShape d o g b s d = .ok [b, s, o] := by
  have h1 : numel (ReflectionalSwitchFunction.forwardShape g [b, s, d]) = b * s * (d * g) := by
    show b * (s * (d * (g * 1))) = b * s * (d * g)
    ring
  unfold FasterKANLayer.coreShape
  rw [inferView_pair _ _ _ hbs h1]
  show (match linearShape (d * g) o [b * s, d * g] with
        | .error e => (Except.error e : Except TorchError Shape)
        | .ok out => inferView (numel out) [some b, some s, none]) = .ok [b, s, o]
  rw [linearShape_ok]
  show inferView (numel [b * s, o]) [some b, some s, none] = .ok [b, s, o]
  have h2 : numel [b * s, o] = b * s * o := by
    show (b * s) * (o * 1) = b * s * o
    ring
  rw [h2]
  exact inferView_triple _ _ _ _ hbs rfl

theorem kanLayer_rank2 (d o g s : Nat) (hs : 0 < s) :
    FasterKANLayer.forwardShape d o g [s, d] = .ok [s, o] := by
  unfold FasterKANLayer.forwardShape
  rw [layerNormShape_pair]
  show (match FasterKANLayer.coreShape d o g 1 s d with
        | .error e => (Except.error e : Except TorchError Shape)
        | .ok y => .ok (squeeze0 y)) = .ok [s, o]
  rw [coreShape_ok d o g 1 s (by omega)]
  rfl

theorem kanLayer_rank3 (d o g b s : Nat) (hb : 0 < b) (hs : 0 < s) :
    FasterKANLayer.forwardShape d o g [b, s, d] = .ok [b, s, o] := by
  unfold FasterKANLayer.forwardShape
  rw [layerNormShape_triple]
  exact coreShape_ok d o g b s (Nat.mul_pos hb hs)

theorem stackStep (g d0 d1 : Nat) (ps : List (Nat × Nat)) (x y : Shape)
    (h : FasterKANLayer.forwardShape d0 d1 g x = .ok y) :
    FasterKAN.forwardShape g ((d0, d1) :: ps) x = FasterKAN.forwardShape g ps y := by
  show List.foldl (fun acc p => acc.bind (FasterKANLayer.forwardShape p.1 p.2 g))
      ((Except.ok x).bind (FasterKANLayer.forwardShape d0 d1 g)) ps
      = FasterKAN.forwardShape g ps y
  rw [okBind, h]
  rfl

theorem stack_rank2 (g : Nat) : ∀ (rest : List Nat) (d0 s : Nat), 0 < s →
    FasterKAN.forwardShape g (FasterKAN.initPairs (d0 :: rest)) [s, d0]
      = .ok [s, lastDimD (d0 :: rest)] := by
  intro rest
  induction rest with
  | nil => intro d0 s _; rfl
  | cons d1 rest ih =>
    intro d0 s hs
    have hpair : FasterKAN.initPairs (d0 :: d1 :: rest)
        = (d0, d1) :: FasterKAN.initPairs (d1 :: rest) := rfl
    rw [hpair, stackStep g d0 d1 _ _ _ (kanLayer_rank2 d0 d1 g s hs), ih d1 s hs]
    rfl

theorem stack_rank3 (g : Nat) : ∀ (rest : List Nat) (d0 b s : Nat), 0 < b → 0 < s →
    FasterKAN.forwardShape g (FasterKAN.initPairs (d0 :: rest)) [b, s, d0]
      = .ok [b, s, lastDimD (d0 :: rest)] := by
  intro rest
  induction rest with
  | nil => intro d0 b s _ _; rfl
  | cons d1 rest ih =>
    intro d0 b s hb hs
    have hpair : FasterKAN.initPairs (d0 :: d1 :: rest)
        = (d0, d1) :: FasterKAN.initPairs (d1 :: rest) := rfl
    rw [hpair, stackStep g d0 d1 _ _ _ (kanLayer_rank3 d0 d1 g b s hb hs), ih d1 b s hb hs]
    rfl

/- ### Claims C1, C3, C5 -/

/-- C1 (amended): constructing a FasterKAN stack with a layers_hidden list of
fewer than two dimensions does NOT fail: FasterKAN.__init__ performs no
validation, construction always succeeds, and such a list yields a stack with
zero layers whose forward is the identity; no ConfigError is raised at
construction or forward time. -/
theorem C1_stack_construction_never_fails :
    ∀ (layersHidden : List Nat),
      FasterKAN.init layersHidden = .ok (FasterKAN.initPairs layersHidden) ∧
      (layersHidden.length < 2 →
        FasterKAN.initPairs layersHidden = [] ∧
        ∀ (numGrids : Nat) (x : Shape),
          FasterKAN.forwardShape numGrids (FasterKAN.initPairs layersHidden) x = .ok x) := by
  intro lh
  refine ⟨rfl, fun hlen => ?_⟩
  have hp : FasterKAN.initPairs lh = [] := by
    rcases lh with _ | ⟨d, _ | ⟨d2, t⟩⟩
    · rfl
    · rfl
    · simp only [List.length_cons] at hlen; omega
  exact ⟨hp, fun g x => by rw [hp]; rfl⟩

/-- C1 counterexample: the claim says construction with fewer than two
dimensions fails with a ConfigError; on the code, FasterKAN([5]) succeeds,
producing an empty layer list. -/
theorem C1_counterexample : FasterKAN.init [5] = .ok [] := rfl

/-- C1 witness: the amended theorem applied at layers_hidden = [5]. -/
theorem C1_witness :
    ([5] : List Nat).length < 2 ∧
      (FasterKAN.initPairs [5] = [] ∧
       ∀ (numGrids : Nat) (x : Shape),
         FasterKAN.forwardShape numGrids (FasterKAN.initPairs [5]) x = .ok x) :=
  ⟨by decide, (C1_stack_construction_never_fails [5]).2 (by decide)⟩

/-- C3 (amended): for every rank-2 input (sequence, input_dim) with
sequence at least 1 and every rank-3 input (batch, sequence, input_dim) with
batch and sequence at least 1, FasterKANLayer.forward returns a tensor whose
leading axes equal the input's leading axes with the last axis replaced by
output_dim; in particular (5, 4) with output_dim 3 yields (5, 3) and
(2, 5, 4) yields (2, 5, 3).  (A zero-size leading axis is instead rejected by
the internal view(batch_size * seq_len, -1) step; see the counterexample.) -/
theorem C3_layer_forward_leading_axes :
    ∀ (inputDim outputDim numGrids s b : Nat), 0 < s → 0 < b →
      (FasterKANLayer.forwardShape inputDim outputDim numGrids [s, inputDim]
          = .ok [s, outputDim] ∧
       FasterKANLayer.forwardShape inputDim outputDim numGrids [b, s, inputDim]
          = .ok [b, s, outputDim]) ∧
      (FasterKANLayer.forwardShape 4 3 8 [5, 4] = .ok [5, 3] ∧
       FasterKANLayer.forwardShape 4 3 8 [2, 5, 4] = .ok [2, 5, 3]) := by
  intro d o g s b hs hb
  exact ⟨⟨kanLayer_rank2 d o g s hs, kanLayer_rank3 d o g b s hb hs⟩,
    kanLayer_rank2 4 3 8 5 (by omega), kanLayer_rank3 4 3 8 2 5 (by omega) (by omega)⟩

/-- C3 counterexample: the claim as stated quantifies over every rank-2 input
(sequence, input_dim); at the concrete rank-2 input of shape (0, 4) the
forward call errors (view(0, -1) cannot infer the -1 dimension), so no output
with the claimed shape is returned. -/
theorem C3_counterexample :
    FasterKANLayer.forwardShape 4 3 8 [0, 4] = .error .runtimeError := rfl

/-- C3 witness: the amended theorem applied at input_dim 4, output_dim 3,
num_grids 8, sequence 5, batch 2. -/
theorem C3_witness :
    ((0 : Nat) < 5 ∧ (0 : Nat) < 2) ∧
      ((FasterKANLayer.forwardShape 4 3 8 [5, 4] = .ok [5, 3] ∧
        FasterKANLayer.forwardShape 4 3 8 [2, 5, 4] = .ok [2, 5, 3]) ∧
       (FasterKANLayer.forwardShape 4 3 8 [5, 4] = .ok [5, 3] ∧
        FasterKANLayer.forwardShape 4 3 8 [2, 5, 4] = .ok [2, 5, 3])) :=
  ⟨⟨by decide, by decide⟩,
   C3_layer_forward_leading_axes 4 3 8 5 2 (by decide) (by decide)⟩

/-- C5 (amended): FasterKANLayer.forward rejects every input whose rank is
not 2 and not 3 with an explicit error and returns no tensor; rank-2 and
rank-3 inputs of the correct last dimension whose leading axes are all at
least 1 are never rejected.  (Rank-2/3 inputs with a zero-size leading axis
are rejected by the internal view step; see the counterexample.) -/
theorem C5_layer_rank_errors :
    ∀ (inputDim outputDim numGrids : Nat) (x : Shape) (s b : Nat),
      x.length ≠ 2 → x.length ≠ 3 → 0 < s → 0 < b →
      exceptIsOk (FasterKANLayer.forwardShape inputDim outputDim numGrids x) = false ∧
      FasterKANLayer.forwardShape inputDim outputDim numGrids [s, inputDim]
          = .ok [s, outputDim] ∧
      FasterKANLayer.forwardShape inputDim outputDim numGrids [b, s, inputDim]
          = .ok [b, s, outputDim] := by
  intro d o g x s b h2 h3 hs hb
  refine ⟨?_, kanLayer_rank2 d o g s hs, kanLayer_rank3 d o g b s hb hs⟩
  cases hLN : layerNormShape d x with
  | error e =>
    unfold FasterKANLayer.forwardShape
    rw [hLN]
    rfl
  | ok y =>
    have hyx := layerNormShape_ok_eq d x y hLN
    rw [← hyx] at h2 h3
    unfold FasterKANLayer.forwardShape
    rw [hLN]
    rcases y with _ | ⟨a1, _ | ⟨a2, _ | ⟨a3, _ | ⟨a4, t⟩⟩⟩⟩
    · rfl
    · rfl
    · exact absurd rfl h2
    · exact absurd rfl h3
    · rfl

/-- C5 counterexample: the claim says rank-2/3 inputs of the correct last
dimension are never rejected; the rank-3 input of shape (2, 0, 4) with
input_dim 4 is rejected (the internal view(0, -1) step fails). -/
theorem C5_counterexample :
    FasterKANLayer.forwardShape 4 3 8 [2, 0, 4] = .error .runtimeError := rfl

/-- C5 witness: the amended theorem applied at the rank-1 input [7] (which is
rejected) together with accepted inputs (5, 4) and (2, 5, 4). -/
theorem C5_witness :
    (([7] : Shape).length ≠ 2 ∧ ([7] : Shape).length ≠ 3 ∧
      (0 : Nat) < 5 ∧ (0 : Nat) < 2) ∧
      (exceptIsOk (FasterKANLayer.forwardShape 4 3 8 [7]) = false ∧
       FasterKANLayer.forwardShape 4 3 8 [5, 4] = .ok [5, 3] ∧
       FasterKANLayer.forwardShape 4 3 8 [2, 5, 4] = .ok [2, 5, 3]) :=
  ⟨⟨by decide, by decide, by decide, by decide⟩,
   C5_layer_rank_errors 4 3 8 [7] 5 2 (by decide) (by decide) (by decide) (by decide)⟩

/- ### Feature extractor shape semantics (src lines 137-346)

ReLU, Sigmoid and Dropout preserve shapes and are omitted from the shape
pipeline; BatchNorm2d is modelled in evaluation mode (shape-preserving with a
channel-count check). -/

/-- `nn.Conv2d(inC, outC, k, stride, padding)` shape contract on 4-D input:
channel count must match and the padded spatial extent must be at least the
kernel size; output spatial size is `(n + 2p - k) / s + 1`. -/
def conv2dShape (inC outC k stride padding : Nat) (x : Shape) : Except TorchError Shape :=
  match x with
  | [b, c, h, w] =>
    if c = inC ∧ k ≤ h + 2 * padding ∧ k ≤ w + 2 * padding then
      .ok [b, outC, (h + 2 * padding - k) / stride + 1, (w + 2 * padding - k) / stride + 1]
    else .error .runtimeError
  | _ => .error .runtimeError

/-- `nn.BatchNorm2d(features)` shape contract (evaluation mode): 4-D input
with matching channel count, shape preserved. -/
def batchNorm2dShape (features : Nat) (x : Shape) : Except TorchError Shape :=
  match x with
  | [b, c, h, w] => if c = features then .ok [b, c, h, w] else .error .runtimeError
  | _ => .error .runtimeError

/-- `nn.MaxPool2d(k, stride)` shape contract. -/
def maxPool2dShape (k stride : Nat) (x : Shape) : Except TorchError Shape :=
  match x with
  | [b, c, h, w] =>
    if k ≤ h ∧ k ≤ w then .ok [b, c, (h - k) / stride + 1, (w - k) / stride + 1]
    else .error .runtimeError
  | _ => .error .runtimeError

/-- `nn.AdaptiveAvgPool2d(1)` shape contract: 4-D input, spatial dims become 1. -/
def adaptiveAvgPool2dShape (x : Shape) : Except TorchError Shape :=
  match x with
  | [b, c, _, _] => .ok [b, c, 1, 1]
  | _ => .error .runtimeError

/-- Whether `src` can be expanded (broadcast) to `target`, dimension by
dimension: equal sizes or a 1 in `src`. -/
def broadcastOk : Shape → Shape → Bool
  | [], [] => true
  | s :: ss, t :: ts => (s == t || s == 1) && broadcastOk ss ts
  | _, _ => false

/-- `Tensor.expand_as` shape contract. -/
def expandAsShape (src target : Shape) : Except TorchError Shape :=
  if broadcastOk src target then .ok target else .error .runtimeError

/-- Elementwise multiplication of same-shape tensors. -/
def mulShape (x y : Shape) : Except TorchError Shape :=
  if x = y then .ok x else .error .runtimeError

/-- Elementwise (in-place) addition of same-shape tensors. -/
def addShape (x y : Shape) : Except TorchError Shape :=
  if x = y then .ok x else .error .runtimeError

/-- Shape semantics of SEBlock.forward (src lines 201-224): global average
pool, view to (b, c), the two-linear bottleneck (channel // reduction), view
back to (b, c, 1, 1), expand and multiply. -/
def SEBlock.forwardShape (channel reduction : Nat) (x : Shape) : Except TorchError Shape :=
  match x with
  | [b, c, h, w] => do
    let y ← adaptiveAvgPool2dShape [b, c, h, w]
    let y ← exactView (numel y) [b, c]
    let y ← linearShape channel (channel / reduction) y
    let y ← linearShape (channel / reduction) channel y
    let y ← exactView (numel y) [b, c, 1, 1]
    let y ← expandAsShape y [b, c, h, w]
    mulShape [b, c, h, w] y
  | _ => .error .runtimeError

/-- Shape semantics of BasicResBlock.forward (src lines 147-189): the
downsample path is a 1 by 1 convolution plus normalization exactly when
stride is not 1 or the channel counts differ, otherwise the empty Sequential
(identity); the residual path is conv-bn-relu-conv-bn; the two are added. -/
def BasicResBlock.forwardShape (inChannels outChannels stride : Nat) (x : Shape) :
    Except TorchError Shape := do
  let identity ←
    if stride ≠ 1 ∨ inChannels ≠ outChannels then
      (conv2dShape inChannels outChannels 1 stride 0 x).bind (batchNorm2dShape outChannels)
    else .ok x
  let out ← conv2dShape inChannels outChannels 3 stride 1 x
  let out ← batchNorm2dShape outChannels out
  let out ← conv2dShape outChannels outChannels 3 1 1 out
  let out ← batchNorm2dShape outChannels out
  addShape out identity

/-- Shape semantics of DepthwiseSeparableConv.forward (src lines 239-263):
a grouped spatial convolution keeping the channel count, then a pointwise
1 by 1 convolution mixing channels. -/
def DepthwiseSeparableConv.forwardShape (inChannels outChannels k padding : Nat)
    (x : Shape) : Except TorchError Shape := do
  let y ← conv2dShape inChannels inChannels k 1 padding x
  conv2dShape inChannels outChannels 1 1 0 y

/-- Rank-3 `Tensor.permute 0 2 1`. -/
def permute021 : Shape → Shape
  | [a, b, c] => [a, c, b]
  | s => s

/-- `torch.bmm` shape contract: equal batch sizes and matching inner
dimensions. -/
def bmmShape (x y : Shape) : Except TorchError Shape :=
  match x, y with
  | [b1, n, m], [b2, m2, p] =>
    if b1 = b2 ∧ m = m2 then .ok [b1, n, p] else .error .runtimeError
  | _, _ => .error .runtimeError

/-- Shape semantics of SelfAttention.forward (src lines 281-302): 1 by 1
convolutions to query/key (in_channels // 8 channels) and value, views with a
-1 slot flattening the spatial extent, the two batched matrix products around
the softmax (softmax preserves the shape), the exact view back, and the
gamma-weighted residual addition. -/
def SelfAttention.forwardShape (inC : Nat) (x : Shape) : Except TorchError Shape :=
  match x with
  | [b, c, w, h] =>
    (conv2dShape inC (inC / 8) 1 1 0 [b, c, w, h]).bind fun q4 =>
    (inferView (numel q4) [some b, none, some (w * h)]).bind fun q =>
    (conv2dShape inC (inC / 8) 1 1 0 [b, c, w, h]).bind fun k4 =>
    (inferView (numel k4) [some b, none, some (w * h)]).bind fun k =>
    (bmmShape (permute021 q) k).bind fun energy =>
    (conv2dShape inC inC 1 1 0 [b, c, w, h]).bind fun v4 =>
    (inferView (numel v4) [some b, none, some (w * h)]).bind fun v =>
    (bmmShape v (permute021 energy)).bind fun o =>
    (exactView (numel o) [b, c, w, h]).bind fun o2 =>
    if o2 = [b, c, w, h] then .ok [b, c, w, h] else .error .runtimeError
  | _ => .error .runtimeError

/-- Shape semantics of EnhancedFeatureExtractor.forward (src lines 305-346):
the fixed convolutional pipeline, global average pooling, the
view(batch_size, -1) flatten and the final linear projection to hidden_dim.
ReLU and Dropout stages preserve shapes and are omitted. -/
def EnhancedFeatureExtractor.forwardShape (inputChannels hiddenDim : Nat) (x : Shape) :
    Except TorchError Shape :=
  match x with
  | b :: rest => do
    let y ← conv2dShape inputChannels 32 3 1 1 (b :: rest)
    let y ← batchNorm2dShape 32 y
    let y ← conv2dShape 32 64 3 1 1 y
    let y ← batchNorm2dShape 64 y
    let y ← maxPool2dShape 2 2 y
    let y ← BasicResBlock.forwardShape 64 128 1 y
    let y ← SEBlock.forwardShape 128 16 y
    let y ← conv2dShape 128 256 3 1 1 y
    let y ← batchNorm2dShape 256 y
    let y ← maxPool2dShape 2 2 y
    let y ← DepthwiseSeparableConv.forwardShape 256 512 3 1 y
    let y ← batchNorm2dShape 512 y
    let y ← BasicResBlock.forwardShape 512 512 1 y
    let y ← SEBlock.forwardShape 512 16 y
    let y ← maxPool2dShape 2 2 y
    let y ← SelfAttention.forwardShape 512 y
    let y ← adaptiveAvgPool2dShape y
    let y ← inferView (numel y) [some b, none]
    linearShape 512 hiddenDim y
  | [] => .error .runtimeError

/- ### Helper lemmas for the self-attention shape proof -/

theorem conv1x1Shape_ok (inC outC b c h w : Nat) (hc : c = inC) (hh : 0 < h) (hw : 0 < w) :
    conv2dShape inC outC 1 1 0 [b, c, h, w] = .ok [b, outC, h, w] := by
  show (if c = inC ∧ 1 ≤ h + 2 * 0 ∧ 1 ≤ w + 2 * 0 then
          (Except.ok [b, outC, (h + 2 * 0 - 1) / 1 + 1, (w + 2 * 0 - 1) / 1 + 1]
            : Except TorchError Shape)
        else .error .runtimeError) = .ok [b, outC, h, w]
  have e1 : (h + 2 * 0 - 1) / 1 + 1 = h := by
    simp only [Nat.mul_zero, Nat.add_zero, Nat.div_one]
    omega
  have e2 : (w + 2 * 0 - 1) / 1 + 1 = w := by
    simp only [Nat.mul_zero, Nat.add_zero, Nat.div_one]
    omega
  rw [if_pos ⟨hc, by omega, by omega⟩, e1, e2]

theorem inferView_mid (ne b m v : Nat) (h0 : 0 < b * m) (h : ne = b * m * v) :
    inferView ne [some b, none, some m] = .ok [b, v, m] := by
  show (if 0 < b * (m * 1) ∧ (b * (m * 1)) ∣ ne then
          (Except.ok [b, ne / (b * (m * 1)), m] : Except TorchError Shape)
        else .error .runtimeError) = .ok [b, v, m]
  have e1 : b * (m * 1) = b * m := by ring
  rw [if_pos (by rw [e1, h]; exact ⟨h0, Dvd.intro v rfl⟩)]
  rw [e1, h, Nat.mul_div_cancel_left v h0]

theorem bmmShape_ok (b n m p : Nat) :
    bmmShape [b, n, m] [b, m, p] = .ok [b, n, p] := by
  show (if b = b ∧ m = m then (Except.ok [b, n, p] : Except TorchError Shape)
        else .error .runtimeError) = .ok [b, n, p]
  rw [if_pos ⟨rfl, rfl⟩]

theorem exactView_ok (ne : Nat) (t : Shape) (h : ne = numel t) :
    exactView ne t = .ok t := by
  unfold exactView
  rw [if_pos h]

/- ### Claims C6 and C9 -/

/-- C6: FasterKAN.forward applies its layers strictly in sequence, so the
output's last dimension equals the last element of layers_hidden for any
valid (nonempty) input whose last dimension equals the first element; the
feature extractor with input_channels 3 and hidden_dim 64 maps (2, 3, 32, 32)
to (2, 64), and the KAN stack [64, 32, 10] maps (2, 64) to (2, 10). -/
theorem C6_stack_sequential_and_end_to_end :
    ∀ (d0 : Nat) (rest : List Nat) (numGrids s b : Nat), 0 < s → 0 < b →
      (FasterKAN.forwardShape numGrids (FasterKAN.initPairs (d0 :: rest)) [s, d0]
          = .ok [s, lastDimD (d0 :: rest)] ∧
       FasterKAN.forwardShape numGrids (FasterKAN.initPairs (d0 :: rest)) [b, s, d0]
          = .ok [b, s, lastDimD (d0 :: rest)]) ∧
      (EnhancedFeatureExtractor.forwardShape 3 64 [2, 3, 32, 32] = .ok [2, 64] ∧
       FasterKAN.forwardShape 8 (FasterKAN.initPairs [64, 32, 10]) [2, 64] = .ok [2, 10]) := by
  intro d0 rest g s b hs hb
  exact ⟨⟨stack_rank2 g rest d0 s hs, stack_rank3 g rest d0 b s hb hs⟩, by rfl, by rfl⟩

/-- C6 witness: the theorem applied at layers_hidden = [64, 32, 10],
num_grids 8, rank-2 input of leading size 2 and rank-3 input (1, 2, 64). -/
theorem C6_witness :
    ((0 : Nat) < 2 ∧ (0 : Nat) < 1) ∧
      ((FasterKAN.forwardShape 8 (FasterKAN.initPairs [64, 32, 10]) [2, 64]
          = .ok [2, lastDimD [64, 32, 10]] ∧
        FasterKAN.forwardShape 8 (FasterKAN.initPairs [64, 32, 10]) [1, 2, 64]
          = .ok [1, 2, lastDimD [64, 32, 10]]) ∧
       (EnhancedFeatureExtractor.forwardShape 3 64 [2, 3, 32, 32] = .ok [2, 64] ∧
        FasterKAN.forwardShape 8 (FasterKAN.initPairs [64, 32, 10]) [2, 64] = .ok [2, 10])) :=
  ⟨⟨by decide, by decide⟩,
   C6_stack_sequential_and_end_to_end 64 [32, 10] 8 2 1 (by decide) (by decide)⟩

/-- C9 (amended): for every 4-D input (batch, channels, height, width) whose
batch and spatial sizes are at least 1 and whose channel count equals the
block's in_channels, SelfAttention.forward output shape exactly equals the
input shape; in particular for (1, 512, 7, 7) and (4, 512, 14, 14).  (A
zero batch or zero spatial extent is instead rejected at the internal
view(b, -1, w*h) step; see the counterexample.) -/
theorem C9_self_attention_shape :
    ∀ (b c h w : Nat), 0 < b → 0 < h → 0 < w →
      SelfAttention.forwardShape c [b, c, h, w] = .ok [b, c, h, w] ∧
      (SelfAttention.forwardShape 512 [1, 512, 7, 7] = .ok [1, 512, 7, 7] ∧
       SelfAttention.forwardShape 512 [4, 512, 14, 14] = .ok [4, 512, 14, 14]) := by
  intro b c h w hb hh hw
  refine ⟨?_, by rfl, by rfl⟩
  have h0 : 0 < b * (h * w) := Nat.mul_pos hb (Nat.mul_pos hh hw)
  have hq := conv1x1Shape_ok c (c / 8) b c h w rfl hh hw
  have hview1 : inferView (numel [b, c / 8, h, w]) [some b, none, some (h * w)]
      = .ok [b, c / 8, h * w] := by
    refine inferView_mid _ _ _ _ h0 ?_
    show b * (c / 8 * (h * (w * 1))) = b * (h * w) * (c / 8)
    ring
  have hbmm1 := bmmShape_ok b (h * w) (c / 8) (h * w)
  have hv := conv1x1Shape_ok c c b c h w rfl hh hw
  have hview2 : inferView (numel [b, c, h, w]) [some b, none, some (h * w)]
      = .ok [b, c, h * w] := by
    refine inferView_mid _ _ _ _ h0 ?_
    show b * (c * (h * (w * 1))) = b * (h * w) * c
    ring
  have hbmm2 := bmmShape_ok b c (h * w) (h * w)
  have hev : exactView (numel [b, c, h * w]) [b, c, h, w] = .ok [b, c, h, w] := by
    refine exactView_ok _ _ ?_
    show b * (c * (h * w * 1)) = b * (c * (h * (w * 1)))
    ring
  simp only [SelfAttention.forwardShape, hq, okBind, hview1, permute021, hbmm1, hv,
    hview2, hbmm2, hev]
  rw [if_pos trivial]

/-- C9 counterexample: the claim as stated quantifies over every 4-D input;
at the concrete input of shape (0, 512, 7, 7) the forward call errors (the
view(0, -1, 49) step cannot infer the -1 dimension), so no output shape is
produced. -/
theorem C9_counterexample :
    SelfAttention.forwardShape 512 [0, 512, 7, 7] = .error .runtimeError := rfl

/-- C9 witness: the amended theorem applied at input shape (1, 512, 7, 7). -/
theorem C9_witness :
    ((0 : Nat) < 1 ∧ (0 : Nat) < 7 ∧ (0 : Nat) < 7) ∧
      (SelfAttention.forwardShape 512 [1, 512, 7, 7] = .ok [1, 512, 7, 7] ∧
       (SelfAttention.forwardShape 512 [1, 512, 7, 7] = .ok [1, 512, 7, 7] ∧
        SelfAttention.forwardShape 512 [4, 512, 14, 14] = .ok [4, 512, 14, 14])) :=
  ⟨⟨by decide, by decide, by decide⟩,
   C9_self_attention_shape 1 512 7 7 (by decide) (by decide) (by decide)⟩

/- ### Value-level semantics over real entries -/

/-- A 4-D tensor (batch, channel, height, width) with real entries. -/
abbrev Tensor4 (b c h w : Nat) := Fin b → Fin c → Fin h → Fin w → ℝ

/-- Elementwise ReLU (F.relu). -/
noncomputable def relu4 {b c h w : Nat} (x : Tensor4 b c h w) : Tensor4 b c h w :=
  fun bb i p q => max (x bb i p q) 0

/-- torch.sigmoid. -/
noncomputable def sigmoid (z : ℝ) : ℝ := 1 / (1 + Real.exp (-z))

theorem sigmoid_pos (z : ℝ) : 0 < sigmoid z := by
  unfold sigmoid
  have h := Real.exp_pos (-z)
  positivity

theorem sigmoid_lt_one (z : ℝ) : sigmoid z < 1 := by
  unfold sigmoid
  rw [div_lt_one (by positivity)]
  linarith [Real.exp_pos (-z)]

/-- SEBlock parameters (src lines 201-209): the two bottleneck linear
weights, Linear(channel, channel // reduction, bias=False) and
Linear(channel // reduction, channel, bias=False). -/
structure SEBlock (channel reduction : Nat) where
  w1 : Fin (channel / reduction) → Fin channel → ℝ
  w2 : Fin channel → Fin (channel / reduction) → ℝ

/-- The per-channel gate of SEBlock.forward (src lines 221-223): global
average pool, view to (b, c), linear, ReLU, linear, sigmoid. -/
noncomputable def SEBlock.gate {channel reduction b h w : Nat}
    (se : SEBlock channel reduction) (x : Tensor4 b channel h w)
    (bb : Fin b) (i : Fin channel) : ℝ :=
  let pooled : Fin channel → ℝ := fun j => (∑ p, ∑ q, x bb j p q) / ((h : ℝ) * (w : ℝ))
  let z1 : Fin (channel / reduction) → ℝ := fun j => ∑ i2, se.w1 j i2 * pooled i2
  sigmoid (∑ j, se.w2 i j * max (z1 j) 0)

/-- SEBlock.forward (src line 224): x * y.expand_as(x), each channel of the
input rescaled by its gate value. -/
noncomputable def SEBlock.forward {channel reduction b h w : Nat}
    (se : SEBlock channel reduction) (x : Tensor4 b channel h w) :
    Tensor4 b channel h w :=
  fun bb i p q => x bb i p q * SEBlock.gate se x bb i

/-- SelfAttention parameters (src lines 274-279): 1 by 1 convolution weights
and biases for query and key (in_channels // 8 output channels) and value,
plus the scalar gamma. -/
structure SelfAttention (inC : Nat) where
  queryW : Fin (inC / 8) → Fin inC → ℝ
  queryB : Fin (inC / 8) → ℝ
  keyW : Fin (inC / 8) → Fin inC → ℝ
  keyB : Fin (inC / 8) → ℝ
  valueW : Fin inC → Fin inC → ℝ
  valueB : Fin inC → ℝ
  gamma : ℝ

/-- SelfAttention.__init__ (src line 279): gamma = torch.zeros(1); the
convolution weights and biases are whatever their initialization produced. -/
def SelfAttention.init (inC : Nat)
    (qW : Fin (inC / 8) → Fin inC → ℝ) (qB : Fin (inC / 8) → ℝ)
    (kW : Fin (inC / 8) → Fin inC → ℝ) (kB : Fin (inC / 8) → ℝ)
    (vW : Fin inC → Fin inC → ℝ) (vB : Fin inC → ℝ) : SelfAttention inC :=
  ⟨qW, qB, kW, kB, vW, vB, 0⟩

/-- A 1 by 1 convolution with bias: a pointwise channel-mixing linear map. -/
noncomputable def pointConv {b c h w oc : Nat} (W : Fin oc → Fin c → ℝ)
    (B : Fin oc → ℝ) (x : Tensor4 b c h w) : Tensor4 b oc h w :=
  fun bb o p q => (∑ i, W o i * x bb i p q) + B o

/-- Row softmax over a finite index type (F.softmax along dim=-1). -/
noncomputable def softmaxRow {α : Type} [Fintype α] (e : α → ℝ) (j : α) : ℝ :=
  Real.exp (e j) / ∑ k2, Real.exp (e k2)

/-- SelfAttention.forward (src lines 281-302), spatial positions indexed by
pairs (the view/permute/bmm plumbing of the source flattens and unflattens
the spatial extent consistently): energy is the query-key inner product over
the reduced channels, attention the softmax over key positions, out the
attention-weighted value map, and the result gamma * out + x. -/
noncomputable def SelfAttention.forward {inC b h w : Nat} (sa : SelfAttention inC)
    (x : Tensor4 b inC h w) : Tensor4 b inC h w :=
  let pq := pointConv sa.queryW sa.queryB x
  let pk := pointConv sa.keyW sa.keyB x
  let pv := pointConv sa.valueW sa.valueB x
  let attention : Fin b → (Fin h × Fin w) → (Fin h × Fin w) → ℝ :=
    fun bb p => softmaxRow (fun q => ∑ i, pq bb i p.1 p.2 * pk bb i q.1 q.2)
  fun bb i p1 p2 =>
    sa.gamma * (∑ q : Fin h × Fin w, pv bb i q.1 q.2 * attention bb (p1, p2) q)
      + x bb i p1 p2

/- ### BasicResBlock value-level semantics (src lines 137-189) -/

/-- BatchNorm2d parameters (evaluation mode): per-channel weight, bias,
running mean, running variance, eps. -/
structure BatchNorm2dP (c : Nat) where
  weight : Fin c → ℝ
  bias : Fin c → ℝ
  runningMean : Fin c → ℝ
  runningVar : Fin c → ℝ
  eps : ℝ

/-- BatchNorm2d applied per channel (evaluation mode; training mode replaces
the running statistics by batch statistics, which does not affect the
residual-wiring claim proved below). -/
noncomputable def BatchNorm2dP.apply {c b h w : Nat} (p : BatchNorm2dP c)
    (x : Tensor4 b c h w) : Tensor4 b c h w :=
  fun bb i r s =>
    p.weight i * ((x bb i r s - p.runningMean i) / Real.sqrt (p.runningVar i + p.eps))
      + p.bias i

/-- Convolution kernel weights (out channels, in channels, k by k). -/
abbrev ConvW (outC inC k : Nat) := Fin outC → Fin inC → Fin k → Fin k → ℝ

/-- Zero-padded access into a 4-D tensor at integer spatial coordinates. -/
noncomputable def padGet {b c h w : Nat} (x : Tensor4 b c h w) (bb : Fin b)
    (i : Fin c) (p q : Int) : ℝ :=
  if hpq : 0 ≤ p ∧ p < (h : Int) ∧ 0 ≤ q ∧ q < (w : Int) then
    x bb i ⟨p.toNat, by omega⟩ ⟨q.toNat, by omega⟩
  else 0

/-- A 3 by 3 convolution with stride 1, padding 1, bias=False: the
configuration of both residual-path convolutions of BasicResBlock when
stride is 1; spatial dimensions are preserved. -/
noncomputable def conv2d3x3 {b inC h w outC : Nat} (W : ConvW outC inC 3)
    (x : Tensor4 b inC h w) : Tensor4 b outC h w :=
  fun bb o r s => ∑ i, ∑ ki : Fin 3, ∑ kj : Fin 3,
    W o i ki kj *
      padGet x bb i ((r.val : Int) + (ki.val : Int) - 1) ((s.val : Int) + (kj.val : Int) - 1)

/-- The identity path of BasicResBlock: either the empty Sequential or a
1 by 1 convolution (bias=False) followed by BatchNorm2d (src lines 163-170). -/
inductive DownsamplePath (inC outC stride : Nat) where
  | empty : DownsamplePath inC outC stride
  | projection (convWeight : Fin outC → Fin inC → ℝ) (bn : BatchNorm2dP outC) :
      DownsamplePath inC outC stride

/-- BasicResBlock.__init__ downsample selection (src lines 163-170): the
projection is installed exactly when stride is not 1 or the channel counts
differ; otherwise the downsample stays the empty Sequential. -/
def BasicResBlock.mkDownsample (inC outC stride : Nat)
    (convWeight : Fin outC → Fin inC → ℝ) (bn : BatchNorm2dP outC) :
    DownsamplePath inC outC stride :=
  if stride ≠ 1 ∨ inC ≠ outC then .projection convWeight bn else .empty

/-- Applying the identity path in the stride-1, equal-channel configuration. -/
noncomputable def DownsamplePath.applySame {c b h w : Nat} :
    DownsamplePath c c 1 → Tensor4 b c h w → Tensor4 b c h w
  | .empty, x => x
  | .projection wgt bn, x => bn.apply (fun bb o p q => ∑ i, wgt o i * x bb i p q)

/-- BasicResBlock in the stride-1, equal-channel configuration (the
configuration in which the claim's unmodified-identity assertion applies). -/
structure BasicResBlockS1 (c : Nat) where
  conv1W : ConvW c c 3
  bn1 : BatchNorm2dP c
  conv2W : ConvW c c 3
  bn2 : BatchNorm2dP c
  downsample : DownsamplePath c c 1

/-- BasicResBlock.__init__ for in_channels = out_channels = c, stride = 1
(src lines 147-170): the downsample is whatever mkDownsample selects. -/
def BasicResBlockS1.mk' (c : Nat) (c1 : ConvW c c 3) (b1 : BatchNorm2dP c)
    (c2 : ConvW c c 3) (b2 : BatchNorm2dP c)
    (dW : Fin c → Fin c → ℝ) (dBn : BatchNorm2dP c) : BasicResBlockS1 c :=
  ⟨c1, b1, c2, b2, BasicResBlock.mkDownsample c c 1 dW dBn⟩

/-- BasicResBlock.forward (src lines 172-189): identity = downsample(x);
out = relu(bn1(conv1 x)); out = bn2(conv2 out); out += identity; relu. -/
noncomputable def BasicResBlockS1.forward {c b h w : Nat} (blk : BasicResBlockS1 c)
    (x : Tensor4 b c h w) : Tensor4 b c h w :=
  let identity := blk.downsample.applySame x
  let out := relu4 (blk.bn1.apply (conv2d3x3 blk.conv1W x))
  let out2 := blk.bn2.apply (conv2d3x3 blk.conv2W out)
  relu4 (fun bb i p q => out2 bb i p q + identity bb i p q)

/- ### Constructor argument routing of FasterKANLayer (src lines 11-16) -/

/-- The keyword arguments FasterKAN.__init__ forwards into every
FasterKANLayer (src lines 104-117), which FasterKANLayer.__init__ forwards
wholesale into the ReflectionalSwitchFunction constructor (src line 15). -/
structure KANLayerKwargs where
  gridMin : ℝ
  gridMax : ℝ
  exponent : Nat
  invDenominator : ℝ
  trainGrid : Bool
  trainInvDenominator : Bool
  baseActivation : Option Unit
  splineWeightInitScale : ℝ

/-- The arguments FasterKANLayer.__init__ supplies to the SplineLinear
constructor (src line 16): exactly two positional arguments; no
initialization-scale argument is passed (initScale = none, meaning the
constructor's default is relied upon). -/
structure SplineLinearArgs where
  inFeatures : Nat
  outFeatures : Nat
  initScale : Option ℝ

/-- The arguments FasterKANLayer.__init__ supplies to the
ReflectionalSwitchFunction constructor (src line 15): num_grids plus the
entire kwargs dictionary. -/
structure RSFArgs where
  numGrids : Nat
  kwargs : KANLayerKwargs

/-- The three constructor calls FasterKANLayer.__init__ makes
(src lines 12-16). -/
structure FasterKANLayerModules where
  layernormDim : Nat
  rbf : RSFArgs
  splineLinear : SplineLinearArgs

/-- FasterKANLayer.__init__ (src lines 12-16): LayerNorm(input_dim),
ReflectionalSwitchFunction(num_grids=num_grids, **kwargs),
SplineLinear(input_dim * num_grids, output_dim). -/
def FasterKANLayer.initModules (inputDim outputDim numGrids : Nat)
    (kwargs : KANLayerKwargs) : FasterKANLayerModules :=
  { layernormDim := inputDim
    rbf := { numGrids := numGrids, kwargs := kwargs }
    splineLinear :=
      { inFeatures := inputDim * numGrids, outFeatures := outputDim, initScale := none } }

/-- FasterKAN.__init__ (src lines 102-120): one FasterKANLayer per adjacent
pair of layers_hidden, each given the same kwargs, including
spline_weight_init_scale. -/
def FasterKAN.initLayerModules (layersHidden : List Nat) (numGrids : Nat)
    (kwargs : KANLayerKwargs) : List FasterKANLayerModules :=
  (FasterKAN.initPairs layersHidden).map
    (fun p => FasterKANLayer.initModules p.1 p.2 numGrids kwargs)

/- ### Basis function (modelled from the spec) -/

/-- Modelled from the spec: the per-center basis response of
ReflectionalSwitchFunction (core/kan/fasterkan_basis.py is not under src/).
Spec section 4.1: d = (x - g) * inv_denominator and
r = 1 / (1 + |d| ^ exponent). -/
noncomputable def reflectionalSwitchResponse (x g invDenominator : ℝ)
    (exponent : Nat) : ℝ :=
  1 / (1 + |(x - g) * invDenominator| ^ exponent)

/- ### Claims C2, C4, C7, C8, C10 -/

/-- C2 (code evaluated at the divergence): FasterKANLayer.__init__ never
supplies the configured spline_weight_init_scale to the SplineLinear
constructor — the call is SplineLinear(input_dim * num_grids, output_dim)
with no scale argument — while the kwarg is routed into the
ReflectionalSwitchFunction constructor's kwargs instead; this holds for every
layer a FasterKAN stack constructs. -/
theorem C2_spline_init_scale_not_forwarded :
    ∀ (inputDim outputDim numGrids : Nat) (kwargs : KANLayerKwargs)
      (layersHidden : List Nat),
      (FasterKANLayer.initModules inputDim outputDim numGrids kwargs).splineLinear
          = { inFeatures := inputDim * numGrids, outFeatures := outputDim,
              initScale := none } ∧
      (∀ scale : ℝ,
        (FasterKANLayer.initModules inputDim outputDim numGrids
            kwargs).splineLinear.initScale ≠ some scale) ∧
      (FasterKANLayer.initModules inputDim outputDim numGrids
          kwargs).rbf.kwargs.splineWeightInitScale = kwargs.splineWeightInitScale ∧
      ((FasterKAN.initLayerModules layersHidden numGrids kwargs).map
          (fun m => m.splineLinear.initScale)).all Option.isNone = true := by
  intro inputDim outputDim numGrids kwargs lh
  refine ⟨rfl, ?_, rfl, ?_⟩
  · intro scale h
    exact Option.noConfusion h
  · unfold FasterKAN.initLayerModules
    generalize FasterKAN.initPairs lh = l
    induction l with
    | nil => rfl
    | cons p ps ih =>
      have hhead : (FasterKANLayer.initModules p.1 p.2 numGrids
          kwargs).splineLinear.initScale = none := rfl
      simp only [List.map_cons, List.all_cons, hhead, Option.isNone_none, Bool.true_and]
      exact ih

/-- C4: for every grid center g, every inv_denominator greater than 0 and
every integer exponent at least 1, the basis response lies in (0, 1], is
maximal exactly at x = g (value 1 there, strictly below 1 elsewhere), and
strictly decreases as the distance |x - g| grows. -/
theorem C4_basis_response_properties :
    ∀ (g invd : ℝ) (e : Nat), 1 ≤ e → 0 < invd →
      (∀ x, 0 < reflectionalSwitchResponse x g invd e ∧
            reflectionalSwitchResponse x g invd e ≤ 1) ∧
      reflectionalSwitchResponse g g invd e = 1 ∧
      (∀ x, x ≠ g → reflectionalSwitchResponse x g invd e < 1) ∧
      (∀ x1 x2, |x1 - g| < |x2 - g| →
        reflectionalSwitchResponse x2 g invd e < reflectionalSwitchResponse x1 g invd e) := by
  intro g invd e he hd
  have hden : ∀ x : ℝ, (0:ℝ) < 1 + |(x - g) * invd| ^ e := by
    intro x
    have h := pow_nonneg (abs_nonneg ((x - g) * invd)) e
    linarith
  refine ⟨?_, ?_, ?_, ?_⟩
  · intro x
    constructor
    · exact div_pos one_pos (hden x)
    · unfold reflectionalSwitchResponse
      rw [div_le_one (hden x)]
      have h := pow_nonneg (abs_nonneg ((x - g) * invd)) e
      linarith
  · unfold reflectionalSwitchResponse
    rw [sub_self, zero_mul, abs_zero, zero_pow (by omega : e ≠ 0)]
    norm_num
  · intro x hx
    unfold reflectionalSwitchResponse
    rw [div_lt_one (hden x)]
    have h1 : (0:ℝ) < |(x - g) * invd| :=
      abs_pos.mpr (mul_ne_zero (sub_ne_zero.mpr hx) (ne_of_gt hd))
    have h2 : (0:ℝ) < |(x - g) * invd| ^ e := pow_pos h1 e
    linarith
  · intro x1 x2 hlt
    unfold reflectionalSwitchResponse
    have ha : |(x1 - g) * invd| = |x1 - g| * invd := by
      rw [abs_mul, abs_of_pos hd]
    have hb2 : |(x2 - g) * invd| = |x2 - g| * invd := by
      rw [abs_mul, abs_of_pos hd]
    have hlt2 : |(x1 - g) * invd| < |(x2 - g) * invd| := by
      rw [ha, hb2]
      exact mul_lt_mul_of_pos_right hlt hd
    have hpow : |(x1 - g) * invd| ^ e < |(x2 - g) * invd| ^ e :=
      pow_lt_pow_left₀ hlt2 (abs_nonneg _) (by omega)
    exact div_lt_div_of_pos_left one_pos (hden x1) (by linarith)

/-- C4 witness: the theorem applied at g = 0, inv_denominator = 1,
exponent = 1. -/
theorem C4_witness :
    ((1 : Nat) ≤ 1 ∧ (0:ℝ) < 1) ∧
      ((∀ x, 0 < reflectionalSwitchResponse x 0 1 1 ∧
             reflectionalSwitchResponse x 0 1 1 ≤ 1) ∧
       reflectionalSwitchResponse 0 0 1 1 = 1 ∧
       (∀ x, x ≠ 0 → reflectionalSwitchResponse x 0 1 1 < 1) ∧
       (∀ x1 x2, |x1 - 0| < |x2 - 0| →
         reflectionalSwitchResponse x2 0 1 1 < reflectionalSwitchResponse x1 0 1 1)) :=
  ⟨⟨le_refl 1, by norm_num⟩,
   C4_basis_response_properties 0 1 1 (le_refl 1) (by norm_num)⟩

/-- C7: the downsample (identity path) of BasicResBlock is the unmodified
input exactly when stride = 1 and in_channels = out_channels (and a 1 by 1
convolution followed by normalization otherwise), and in that configuration
the block's output equals relu(second-conv-path output + input). -/
theorem C7_resblock_identity_path :
    ∀ (inC outC stride : Nat) (pw : Fin outC → Fin inC → ℝ) (pbn : BatchNorm2dP outC)
      (c b h w : Nat) (c1 : ConvW c c 3) (b1 : BatchNorm2dP c)
      (c2 : ConvW c c 3) (b2 : BatchNorm2dP c)
      (dW : Fin c → Fin c → ℝ) (dBn : BatchNorm2dP c) (x : Tensor4 b c h w),
      BasicResBlock.mkDownsample inC outC stride pw pbn
          = (if stride = 1 ∧ inC = outC then .empty else .projection pw pbn) ∧
      (BasicResBlockS1.mk' c c1 b1 c2 b2 dW dBn).downsample = DownsamplePath.empty ∧
      (BasicResBlockS1.mk' c c1 b1 c2 b2 dW dBn).forward x
          = relu4 (fun bb i p q =>
              b2.apply (conv2d3x3 c2 (relu4 (b1.apply (conv2d3x3 c1 x)))) bb i p q
                + x bb i p q) := by
  intro inC outC stride pw pbn c b h w c1 b1 c2 b2 dW dBn x
  have hsel : BasicResBlock.mkDownsample inC outC stride pw pbn
      = (if stride = 1 ∧ inC = outC then DownsamplePath.empty
         else .projection pw pbn) := by
    unfold BasicResBlock.mkDownsample
    by_cases hcase : stride = 1 ∧ inC = outC
    · rw [if_neg (by simp [hcase.1, hcase.2]), if_pos hcase]
    · rw [if_pos (by tauto), if_neg hcase]
  have hempty : (BasicResBlockS1.mk' c c1 b1 c2 b2 dW dBn).downsample
      = DownsamplePath.empty := by
    show BasicResBlock.mkDownsample c c 1 dW dBn = DownsamplePath.empty
    unfold BasicResBlock.mkDownsample
    rw [if_neg (by simp)]
  refine ⟨hsel, hempty, ?_⟩
  show relu4 (fun bb i p q =>
      b2.apply (conv2d3x3 c2 (relu4 (b1.apply (conv2d3x3 c1 x)))) bb i p q
        + ((BasicResBlockS1.mk' c c1 b1 c2 b2 dW dBn).downsample.applySame x) bb i p q)
      = relu4 (fun bb i p q =>
      b2.apply (conv2d3x3 c2 (relu4 (b1.apply (conv2d3x3 c1 x)))) bb i p q
        + x bb i p q)
  rw [hempty]
  rfl

/-- C8: every per-channel gate value of the Squeeze-Excitation block lies
strictly within (0, 1), and the block's output is the input with each
channel multiplied by its gate value. -/
theorem C8_se_gate_in_open_interval :
    ∀ (channel reduction b h w : Nat) (se : SEBlock channel reduction)
      (x : Tensor4 b channel h w) (bb : Fin b) (i : Fin channel),
      (0 < SEBlock.gate se x bb i ∧ SEBlock.gate se x bb i < 1) ∧
      SEBlock.forward se x
          = fun bb2 i2 p q => x bb2 i2 p q * SEBlock.gate se x bb2 i2 := by
  intro channel reduction b h w se x bb i
  exact ⟨⟨sigmoid_pos _, sigmoid_lt_one _⟩, rfl⟩

/-- C10: SelfAttention.__init__ initializes gamma to zero, and with gamma
zero the forward pass is the identity: forward(x) = x for every 4-D input. -/
theorem C10_self_attention_init_identity :
    ∀ (inC b h w : Nat)
      (qW : Fin (inC / 8) → Fin inC → ℝ) (qB : Fin (inC / 8) → ℝ)
      (kW : Fin (inC / 8) → Fin inC → ℝ) (kB : Fin (inC / 8) → ℝ)
      (vW : Fin inC → Fin inC → ℝ) (vB : Fin inC → ℝ)
      (x : Tensor4 b inC h w),
      (SelfAttention.init inC qW qB kW kB vW vB).gamma = 0 ∧
      SelfAttention.forward (SelfAttention.init inC qW qB kW kB vW vB) x = x := by
  intro inC b h w qW qB kW kB vW vB x
  refine ⟨rfl, ?_⟩
  funext bb i p1 p2
  simp [SelfAttention.forward, SelfAttention.init]
